import Mathlib

/-!
Verification of the nuScenes dataloader
(`tensorbay/opendataset/nuScenes/loader.py`).

The loader joins JSON annotation tables keyed by opaque string tokens,
walks each scene's singly linked chain of samples, assembles one frame per
sample, registers sensors on first encounter, and for lidar records of
non-test subsets attaches 3D box labels re-expressed in the lidar frame.

Machine floats of the source are modelled by ℚ; Python dict lookups that
may raise KeyError are modelled in the `Except LoadErr` monad.
-/

namespace NuScenes

/-- Modelled from the spec: 3D vector of the rigid-transform API
(`tensorbay.geometry`), which is outside the loader's source. -/
structure Vec3 where
  x : ℚ
  y : ℚ
  z : ℚ
deriving DecidableEq, Repr

def Vec3.add (a b : Vec3) : Vec3 :=
  ⟨a.x + b.x, a.y + b.y, a.z + b.z⟩

def Vec3.neg (a : Vec3) : Vec3 :=
  ⟨-a.x, -a.y, -a.z⟩

/-- Modelled from the spec: rotation quaternion of the rigid-transform API
(`tensorbay.geometry`), which is outside the loader's source. -/
structure Quat where
  w : ℚ
  x : ℚ
  y : ℚ
  z : ℚ
deriving DecidableEq, Repr

def Quat.mul (a b : Quat) : Quat :=
  ⟨a.w * b.w - a.x * b.x - a.y * b.y - a.z * b.z,
   a.w * b.x + a.x * b.w + a.y * b.z - a.z * b.y,
   a.w * b.y - a.x * b.z + a.y * b.w + a.z * b.x,
   a.w * b.z + a.x * b.y - a.y * b.x + a.z * b.w⟩

def Quat.conj (a : Quat) : Quat :=
  ⟨a.w, -a.x, -a.y, -a.z⟩

def Quat.normSq (a : Quat) : ℚ :=
  a.w * a.w + a.x * a.x + a.y * a.y + a.z * a.z

def Quat.inv (a : Quat) : Quat :=
  let n := a.normSq
  ⟨a.w / n, -a.x / n, -a.y / n, -a.z / n⟩

def Quat.ofVec (v : Vec3) : Quat :=
  ⟨0, v.x, v.y, v.z⟩

/-- Modelled from the spec: rotating a vector by a quaternion,
`q * (0, v) * q⁻¹`, part of the external rigid-transform API. -/
def Quat.rotate (q : Quat) (v : Vec3) : Vec3 :=
  let r := (q.mul (Quat.ofVec v)).mul q.inv
  ⟨r.x, r.y, r.z⟩

/-- Modelled from the spec: rigid transform (rotation + translation) of the
external `tensorbay.geometry.Transform3D` API (ego pose: ego→world,
extrinsics: sensor→ego). -/
structure Transform3D where
  rotation : Quat
  translation : Vec3
deriving DecidableEq, Repr

/-- Modelled from the spec: composition of rigid transforms,
`(a * b) v = a (b v)`. -/
def Transform3D.mul (a b : Transform3D) : Transform3D :=
  ⟨a.rotation.mul b.rotation, (a.rotation.rotate b.translation).add a.translation⟩

/-- Modelled from the spec: inversion of a rigid transform. -/
def Transform3D.inverse (t : Transform3D) : Transform3D :=
  ⟨t.rotation.inv, (t.rotation.inv.rotate t.translation).neg⟩

/-- Modelled from the spec: applying a rigid transform to a point. -/
def Transform3D.apply (t : Transform3D) (v : Vec3) : Vec3 :=
  (t.rotation.rotate v).add t.translation

/-- Modelled from the spec: the external `tensorbay.label.LabeledBox3D`:
a 3D box (translation, rotation, size) with category, instance token and a
flattened attribute mapping. -/
structure LabeledBox3D where
  translation : Vec3
  rotation : Quat
  size : ℚ × ℚ × ℚ
  category : String
  instanceTok : String
  attributes : List (String × String)
deriving DecidableEq, Repr

/-- Modelled from the spec: `transform * labeled_box` of the external label
API transforms the box's translation and rotation; size is frame-invariant. -/
def transformBox (t : Transform3D) (b : LabeledBox3D) : LabeledBox3D :=
  { b with translation := t.apply b.translation, rotation := t.rotation.mul b.rotation }

/-! ### Records of the annotation tables (shapes read by the loader) -/

/-- A `sample` record; the loader reads only its `next` token. -/
structure SampleRec where
  next : String
deriving DecidableEq, Repr

/-- A `scene` record. -/
structure SceneRec where
  name : String
  description : String
  first_sample_token : String
deriving DecidableEq, Repr

/-- A `sample_data` entry (one sensor reading of a sample). -/
structure SensorFrameRec where
  calibrated_sensor_token : String
  ego_pose_token : String
  filename : String
  timestamp : ℤ
deriving DecidableEq, Repr

/-- A `calibrated_sensor` record: sensor token plus extrinsic calibration
(its translation/rotation fields, packaged as a transform). -/
structure CalibratedSensorRec where
  sensor_token : String
  extrinsics : Transform3D
deriving DecidableEq, Repr

/-- A `sensor` record: channel name and modality. -/
structure CommonSensorRec where
  channel : String
  modality : String
deriving DecidableEq, Repr

/-- An `ego_pose` record: rigid transform ego→world. -/
structure EgoPoseRec where
  translation : Vec3
  rotation : Quat
deriving DecidableEq, Repr

/-- A `sample_annotation` record (one instance annotation of a keyframe);
`size` is its (width, length, height) triple as stored. -/
structure InstAnnRec where
  instance_token : String
  attribute_tokens : List String
  visibility_token : String
  size : ℚ × ℚ × ℚ
  translation : Vec3
  rotation : Quat
deriving DecidableEq, Repr

/-- An `instance` record. -/
structure InstanceRec where
  category_token : String
deriving DecidableEq, Repr

/-- A `category` record. -/
structure CategoryRec where
  name : String
deriving DecidableEq, Repr

/-- An `attribute` record. -/
structure AttributeRec where
  name : String
deriving DecidableEq, Repr

/-- A `visibility` record. -/
structure VisibilityRec where
  level : String
deriving DecidableEq, Repr

/-! ### Errors and fallible dictionary lookups -/

/-- Fatal failures of the load: Python `KeyError` (table name, missing key),
`ValueError` of tuple unpacking, missing table file, and the marker of a
non-terminating `while` traversal (a cycle in the `next` links). -/
inductive LoadErr where
  | keyError (table : String) (key : String)
  | valueError (msg : String)
  | ioError (file : String)
  | fuelExhausted
deriving DecidableEq, Repr

/-- Association-list lookup, the model of a Python dict read. -/
def lookupTok {α : Type} : List (String × α) → String → Option α
  | [], _ => none
  | (k, v) :: rest, key => if k = key then some v else lookupTok rest key

/-- Dict subscript `table[key]`: raises `KeyError` when the key is absent. -/
def getKey {α : Type} (table : String) (tbl : List (String × α)) (k : String) :
    Except LoadErr α :=
  match lookupTok tbl k with
  | some v => .ok v
  | none => .error (.keyError table k)

/-- `key in dict`. -/
def hasKey {α : Type} (d : List (String × α)) (k : String) : Bool :=
  (lookupTok d k).isSome

/-- Python dict insertion `d[k] = v`: replaces in place when the key exists,
appends at the end otherwise. -/
def dictInsert {α : Type} : List (String × α) → String → α → List (String × α)
  | [], k, v => [(k, v)]
  | (k0, v0) :: rest, k, v =>
    if k0 = k then (k0, v) :: rest else (k0, v0) :: dictInsert rest k v

/-- Number of entries of an association list carrying a given key. -/
def countKey {α : Type} : List (String × α) → String → Nat
  | [], _ => 0
  | (k0, _) :: rest, k => (if k0 = k then 1 else 0) + countKey rest k

/-- Monadic map in `Except`, mirroring a Python loop that appends to a list
and aborts the whole call on the first raised error. -/
def exMapM {α β : Type} (f : α → Except LoadErr β) : List α → Except LoadErr (List β)
  | [] => .ok []
  | a :: rest => do
    let b ← f a
    let bs ← exMapM f rest
    .ok (b :: bs)

/-! ### The loader's own logic (translated from `loader.py`) -/

/-- `_ATTRIBUTE_KEYS`: the fixed mapping from the group part of an attribute
name to the flattened attribute key. -/
def ATTRIBUTE_KEYS : List (String × String) :=
  [("vehicle", "vehicle_motion"), ("cycle", "cycle_rider"), ("pedestrian", "pedestrian_motion")]

/-- Helper of `rsplitDot1`: scans the reversed character list for the first
`.` (the last one of the original string); the accumulator collects, in
original order, the characters standing after it. -/
def rsplitAux : List Char → List Char → Option (List Char × List Char)
  | [], _ => none
  | c :: rest, acc =>
    if c = '.' then some (rest.reverse, acc) else rsplitAux rest (c :: acc)

/-- Python `s.rsplit(".", 1)` followed by unpacking into two names: splits at
the LAST dot; `none` models the `ValueError` raised when there is no dot. -/
def rsplitDot1 (s : String) : Option (String × String) :=
  match rsplitAux s.toList.reverse [] with
  | some (l, r) => some (String.mk l, String.mk r)
  | none => none

/-- The in-memory `annotation_info` dictionary built by
`_get_annotation_info`; the five annotation tables are present (`some`)
only for non-test subsets. -/
structure AnnInfo where
  samples : List (String × SampleRec)
  frame_data : List (String × List SensorFrameRec)
  calibrated_sensors : List (String × CalibratedSensorRec)
  ego_poses : List (String × EgoPoseRec)
  sensor : List (String × CommonSensorRec)
  scenes : List SceneRec
  sample_anns : Option (List (String × List InstAnnRec))
  instances : Option (List (String × InstanceRec))
  categories : Option (List (String × CategoryRec))
  attributes : Option (List (String × AttributeRec))
  visibilities : Option (List (String × VisibilityRec))
deriving Repr

/-- Subscripting `annotation_info[key]` for an annotation table that may be
absent (test subsets): absence raises `KeyError` on `annotation_info`. -/
def annKey {α : Type} (k : String) (o : Option α) : Except LoadErr α :=
  match o with
  | some v => .ok v
  | none => .error (.keyError "annotation_info" k)

/-- One iteration of the attribute loop of `_get_labeled_box`: resolve the
attribute token, split its name at the last dot, map the group part through
`_ATTRIBUTE_KEYS` and insert into the accumulated dict. -/
def attrStep (info : AnnInfo) (attrs : List (String × String)) (t : String) :
    Except LoadErr (List (String × String)) := do
  let attrTbl ← annKey "attribute" info.attributes
  let attrRec ← getKey "attribute" attrTbl t
  match rsplitDot1 attrRec.name with
  | none => .error (.valueError "not enough values to unpack")
  | some (key, value) => do
    let mapped ← getKey "_ATTRIBUTE_KEYS" ATTRIBUTE_KEYS key
    .ok (dictInsert attrs mapped value)

/-- The attribute loop of `_get_labeled_box` over all attribute tokens. -/
def attrFold (info : AnnInfo) : List String → List (String × String) →
    Except LoadErr (List (String × String))
  | [], attrs => .ok attrs
  | t :: rest, attrs => do
    let attrs' ← attrStep info attrs t
    attrFold info rest attrs'

/-- `_get_labeled_box`: resolve category, flatten attributes, attach the
visibility level, and build the label box with the (width, length, height)
size triple re-ordered to (length, width, height). -/
def getLabeledBox (ann : InstAnnRec) (info : AnnInfo) : Except LoadErr LabeledBox3D := do
  let instTbl ← annKey "instance" info.instances
  let catTbl ← annKey "category" info.categories
  let instRec ← getKey "instance" instTbl ann.instance_token
  let catRec ← getKey "category" catTbl instRec.category_token
  let attrs ← attrFold info ann.attribute_tokens []
  let visTbl ← annKey "visibility" info.visibilities
  let visRec ← getKey "visibility" visTbl ann.visibility_token
  .ok { translation := ann.translation
        rotation := ann.rotation
        size := (ann.size.2.1, ann.size.1, ann.size.2.2)
        category := catRec.name
        instanceTok := ann.instance_token
        attributes := dictInsert attrs "visibility" visRec.level }

/-- The `Transform3D(translation=..., rotation=...)` constructed from an ego
pose record in `_get_labels`. -/
def egoToTransform (e : EgoPoseRec) : Transform3D :=
  ⟨e.rotation, e.translation⟩

/-- `_get_labels`: when the sample token has annotations, build the
world→lidar transform `(ego_pose * lidar_to_ego).inverse()` once and apply
it to every resolved label box; otherwise return the empty label list. -/
def getLabels (tok : String) (ego : EgoPoseRec) (lidar_to_ego : Transform3D)
    (info : AnnInfo) : Except LoadErr (List LabeledBox3D) := do
  let sa ← annKey "sample_annotations" info.sample_anns
  match lookupTok sa tok with
  | none => .ok []
  | some anns =>
    let lidar_ego_pose := egoToTransform ego
    let world_to_lidar := (lidar_ego_pose.mul lidar_to_ego).inverse
    exMapM (fun a => do
      let b ← getLabeledBox a info
      .ok (transformBox world_to_lidar b)) anns

/-- Modelled from the spec: the sensor object registered into a segment by
the external `get_sensor` helper — channel name, modality and the extrinsic
calibration taken from the calibrated-sensor record. -/
structure Sensor where
  name : String
  modality : String
  extrinsics : Transform3D
deriving DecidableEq, Repr

/-- Modelled from the spec: `get_sensor(sensor_type, sensor_name, info)`. -/
def getSensor (sensor_type sensor_name : String) (cal : CalibratedSensorRec) : Sensor :=
  ⟨sensor_name, sensor_type, cal.extrinsics⟩

/-- A per-sensor data record: file path, timestamp in seconds, and the 3D box
labels (`none` when `label.box3d` was never assigned). -/
structure Data where
  path : String
  timestamp : ℚ
  box3d : Option (List LabeledBox3D)
deriving DecidableEq, Repr

/-- A frame: a dict from sensor channel name to its data record. -/
abbrev FrameT := List (String × Data)

/-- A segment's sensor set, keyed by channel name. -/
abbrev SensorMap := List (String × Sensor)

/-- The `if not is_test and sensor_type == "lidar"` branch of
`_load_frame_and_sensor`: the value assigned to `data.label.box3d` (`none`
when the branch is not taken and the field is never assigned). -/
def resolveBox3d (info : AnnInfo) (tok : String) (is_test : Bool)
    (sensor_type sensor_name : String) (sensors : SensorMap) (sf : SensorFrameRec) :
    Except LoadErr (Option (List LabeledBox3D)) :=
  if !is_test && sensor_type == "lidar" then do
    let ego ← getKey "ego_poses" info.ego_poses sf.ego_pose_token
    let sensorObj ← getKey "segment.sensors" sensors sensor_name
    let labels ← getLabels tok ego sensorObj.extrinsics info
    .ok (some labels)
  else .ok none

/-- The body of the `for sensor_frame in ...` loop of
`_load_frame_and_sensor`, threading the segment's sensor set and the frame
under construction through the entries in order. -/
def processEntries (info : AnnInfo) (subset_path : String) (is_test : Bool)
    (tok : String) :
    List SensorFrameRec → SensorMap → FrameT → Except LoadErr (SensorMap × FrameT)
  | [], sensors, frame => .ok (sensors, frame)
  | sf :: rest, sensors, frame => do
    let cal ← getKey "calibrated_sensors" info.calibrated_sensors sf.calibrated_sensor_token
    let common ← getKey "sensor" info.sensor cal.sensor_token
    let sensor_name := common.channel
    let sensor_type := common.modality
    let sensors' :=
      if hasKey sensors sensor_name then sensors
      else sensors ++ [(sensor_name, getSensor sensor_type sensor_name cal)]
    let box3d ← resolveBox3d info tok is_test sensor_type sensor_name sensors' sf
    let data : Data :=
      { path := subset_path ++ "/" ++ sf.filename
        timestamp := (sf.timestamp : ℚ) / 10 ^ 6
        box3d := box3d }
    processEntries info subset_path is_test tok rest sensors' (dictInsert frame sensor_name data)

/-- `_load_frame_and_sensor`: look up the sample's sensor-data entries and
process them into one frame, updating the segment's sensor set. -/
def loadFrameAndSensor (info : AnnInfo) (subset_path : String) (is_test : Bool)
    (sensors : SensorMap) (tok : String) : Except LoadErr (SensorMap × FrameT) := do
  let fd ← getKey "frame_data" info.frame_data tok
  processEntries info subset_path is_test tok fd sensors []

/-- Structural iteration of `loadFrameAndSensor` along an explicit token
list: the reference shape of the while loop of `_generate_segments`,
returning the frames appended, one per visited token, in order. -/
def runChain (info : AnnInfo) (subset_path : String) (is_test : Bool) :
    List String → SensorMap → Except LoadErr (SensorMap × List FrameT)
  | [], sensors => .ok (sensors, [])
  | t :: rest, sensors => do
    let (s', f) ← loadFrameAndSensor info subset_path is_test sensors t
    let (s'', fs) ← runChain info subset_path is_test rest s'
    .ok (s'', f :: fs)

/-- The in-memory `FusionSegment`: name, description, sensor set and the
ordered frame list. -/
structure FusionSegment where
  name : String
  description : String
  sensors : SensorMap
  frames : List FrameT
deriving Repr

/-- The `while current_frame_token:` loop of `_generate_segments`: load a
frame for the current token, then follow the sample's `next` token; an empty
token stops. `fuel` bounds the iterations; running out models the hang on a
cyclic `next` chain. -/
def sceneLoop (info : AnnInfo) (subset_path : String) (is_test : Bool) :
    Nat → String → FusionSegment → Except LoadErr FusionSegment
  | 0, tok, seg => if tok = "" then .ok seg else .error .fuelExhausted
  | fuel + 1, tok, seg =>
    if tok = "" then .ok seg
    else do
      let (s', f) ← loadFrameAndSensor info subset_path is_test seg.sensors tok
      let samp ← getKey "samples" info.samples tok
      sceneLoop info subset_path is_test fuel samp.next
        { seg with sensors := s', frames := seg.frames ++ [f] }

/-- One scene of `_generate_segments`: a fresh segment named
`subset-scene_name`, filled by the while loop from `first_sample_token`. -/
def generateSegment (info : AnnInfo) (subset subset_path : String) (is_test : Bool)
    (fuel : Nat) (scene : SceneRec) : Except LoadErr FusionSegment :=
  sceneLoop info subset_path is_test fuel scene.first_sample_token
    ⟨subset ++ "-" ++ scene.name, scene.description, [], []⟩

/-- The subset's table files as found on disk; an annotation table file may
be absent (`none`), in which case reading it is a fatal I/O error. -/
structure RawTables where
  sample : List (String × SampleRec)
  sample_data : List (String × List SensorFrameRec)
  calibrated_sensor : List (String × CalibratedSensorRec)
  ego_pose : List (String × EgoPoseRec)
  sensor : List (String × CommonSensorRec)
  scene : List SceneRec
  sample_ann_file : Option (List (String × List InstAnnRec))
  instance_file : Option (List (String × InstanceRec))
  category_file : Option (List (String × CategoryRec))
  attribute_file : Option (List (String × AttributeRec))
  visibility_file : Option (List (String × VisibilityRec))
deriving Repr

/-- Reading a table file from disk: absence is a fatal I/O error. -/
def readTableFile {α : Type} (fname : String) (o : Option α) : Except LoadErr α :=
  match o with
  | some v => .ok v
  | none => .error (.ioError fname)

/-- `_get_annotation_info`: always index the core tables; load the five
annotation tables only when the subset is not a test subset. -/
def getAnnotationInfo (raw : RawTables) (is_test : Bool) : Except LoadErr AnnInfo :=
  if is_test then
    .ok ⟨raw.sample, raw.sample_data, raw.calibrated_sensor, raw.ego_pose, raw.sensor,
         raw.scene, none, none, none, none, none⟩
  else do
    let sa ← readTableFile "sample_annotation.json" raw.sample_ann_file
    let inst ← readTableFile "instance.json" raw.instance_file
    let cat ← readTableFile "category.json" raw.category_file
    let attr ← readTableFile "attribute.json" raw.attribute_file
    let vis ← readTableFile "visibility.json" raw.visibility_file
    .ok ⟨raw.sample, raw.sample_data, raw.calibrated_sensor, raw.ego_pose, raw.sensor,
         raw.scene, some sa, some inst, some cat, some attr, some vis⟩

/-- `is_test = subset.endswith("test")`: the subset name's characters end
with the four characters of `"test"`. -/
def isTestSubset (subset : String) : Bool :=
  List.isSuffixOf "test".toList subset.toList

/-- The chain of sample tokens a scene's while loop is meant to follow:
starting token, each visited token resolving in the sample table, each
successor given by `next`, ending when the token is empty. -/
inductive IsChain (samples : List (String × SampleRec)) : String → List String → Prop
  | nil : IsChain samples "" []
  | cons {tok : String} {s : SampleRec} {rest : List String} :
      tok ≠ "" → lookupTok samples tok = some s → IsChain samples s.next rest →
      IsChain samples tok (tok :: rest)

/-! ### Concrete fixtures (small well-formed and ill-formed table sets) -/

/-- Identity quaternion. -/
def fxIdQ : Quat := ⟨1, 0, 0, 0⟩

/-- Zero vector. -/
def fxV0 : Vec3 := ⟨0, 0, 0⟩

/-- Identity rigid transform. -/
def fxTid : Transform3D := ⟨fxIdQ, fxV0⟩

/-- A concrete ego pose. -/
def fxEgo : EgoPoseRec := ⟨fxV0, fxIdQ⟩

/-- A concrete instance annotation with size (width 2, length 5, height 3/2). -/
def fxAnn : InstAnnRec :=
  { instance_token := "inst1", attribute_tokens := ["at1"], visibility_token := "v1"
    size := (2, 5, 3/2), translation := ⟨1, 2, 3⟩, rotation := fxIdQ }

/-- A concrete scene whose chain is the single sample `s1`. -/
def fxScene : SceneRec := ⟨"scene-0001", "desc", "s1"⟩

/-- The lidar sensor-data entry of sample `s1`. -/
def fxSf1 : SensorFrameRec :=
  { calibrated_sensor_token := "cs1", ego_pose_token := "e1"
    filename := "f.bin", timestamp := 1000000 }

/-- The lidar sensor-data entry of the orphan token. -/
def fxSf2 : SensorFrameRec :=
  { calibrated_sensor_token := "cs1", ego_pose_token := "e1"
    filename := "g.bin", timestamp := 2000000 }

/-- A small concrete annotation-info fixture: one sample `s1` with one lidar
reading, one annotated instance, plus dangling records used to exercise the
error paths (`csBad` referencing a missing sensor, `atBad` carrying an
unrecognized attribute group, `instBadCat` referencing a missing category,
and an `orphan` sample-data entry with no sample record). -/
def fxInfo : AnnInfo :=
  { samples := [("s1", ⟨""⟩)]
    frame_data := [("s1", [fxSf1]), ("orphan", [fxSf2])]
    calibrated_sensors := [("cs1", ⟨"sen1", fxTid⟩), ("csBad", ⟨"zzz", fxTid⟩)]
    ego_poses := [("e1", fxEgo)]
    sensor := [("sen1", ⟨"LIDAR_TOP", "lidar"⟩)]
    scenes := [fxScene]
    sample_anns := some [("s1", [fxAnn])]
    instances := some [("inst1", ⟨"cat1"⟩), ("instBadCat", ⟨"catNo"⟩)]
    categories := some [("cat1", ⟨"vehicle.car"⟩)]
    attributes := some [("at1", ⟨"vehicle.moving"⟩), ("atBad", ⟨"unknown.state"⟩)]
    visibilities := some [("v1", ⟨"v80-100"⟩)] }

/-- An empty segment, as created at the start of a scene. -/
def fxSeg : FusionSegment := ⟨"n", "d", [], []⟩

/-- On-disk tables of a test subset: the five annotation table files are
absent, the core tables are those of `fxInfo`. -/
def fxRaw : RawTables :=
  { sample := fxInfo.samples
    sample_data := fxInfo.frame_data
    calibrated_sensor := fxInfo.calibrated_sensors
    ego_pose := fxInfo.ego_poses
    sensor := fxInfo.sensor
    scene := [fxScene]
    sample_ann_file := none
    instance_file := none
    category_file := none
    attribute_file := none
    visibility_file := none }

/-- The annotation info a test subset gets from `fxRaw`: core tables only. -/
def fxInfoTest : AnnInfo :=
  ⟨fxRaw.sample, fxRaw.sample_data, fxRaw.calibrated_sensor, fxRaw.ego_pose, fxRaw.sensor,
   fxRaw.scene, none, none, none, none, none⟩

/-! ### Helper lemmas on the `Except` monad and the dict model -/

theorem exBind_pure {α β : Type} (a : α) (f : α → Except LoadErr β) :
    (Except.ok a >>= f) = f a := rfl

theorem exBind_fail {α β : Type} (e : LoadErr) (f : α → Except LoadErr β) :
    (Except.error e >>= f) = (.error e : Except LoadErr β) := rfl

theorem exBind_ok {α β : Type} {x : Except LoadErr α} {f : α → Except LoadErr β} {b : β}
    (h : (x >>= f) = .ok b) : ∃ a, x = .ok a ∧ f a = .ok b := by
  cases x with
  | error e => exact Except.noConfusion (show (Except.error e : Except LoadErr β) = .ok b from h)
  | ok a => exact ⟨a, rfl, h⟩

theorem exBind_err {α β : Type} {x : Except LoadErr α} {f : α → Except LoadErr β} {e : LoadErr}
    (h : (x >>= f) = .error e) : x = .error e ∨ ∃ a, x = .ok a ∧ f a = .error e := by
  cases x with
  | error e' =>
    have h2 : (Except.error e' : Except LoadErr β) = .error e := h
    cases h2
    exact Or.inl rfl
  | ok a => exact Or.inr ⟨a, rfl, h⟩

theorem dictInsert_forall {α : Type} {P : α → Prop} :
    ∀ (d : List (String × α)) (k : String) (v : α),
      (∀ p ∈ d, P p.2) → P v → ∀ p ∈ dictInsert d k v, P p.2
  | [], k, v, _, hv, p, hp => by
    simp only [dictInsert, List.mem_singleton] at hp
    subst hp
    exact hv
  | (k0, v0) :: rest, k, v, hd, hv, p, hp => by
    simp only [dictInsert] at hp
    by_cases hk : k0 = k
    · simp only [if_pos hk, List.mem_cons] at hp
      rcases hp with rfl | hp
      · exact hv
      · exact hd p (List.mem_cons_of_mem _ hp)
    · simp only [if_neg hk, List.mem_cons] at hp
      rcases hp with rfl | hp
      · exact hd _ (List.mem_cons_self _ _)
      · exact dictInsert_forall rest k v (fun q hq => hd q (List.mem_cons_of_mem _ hq)) hv p hp

/-! ### Claim theorems -/

theorem dictInsert_forall_pair {α : Type} {P : String × α → Prop} :
    ∀ (d : List (String × α)) (k : String) (v : α),
      (∀ p ∈ d, P p) → P (k, v) → ∀ p ∈ dictInsert d k v, P p
  | [], k, v, _, hv, p, hp => by
    simp only [dictInsert, List.mem_singleton] at hp
    subst hp
    exact hv
  | (k0, v0) :: rest, k, v, hd, hv, p, hp => by
    simp only [dictInsert] at hp
    by_cases hk : k0 = k
    · simp only [if_pos hk, List.mem_cons] at hp
      rcases hp with rfl | hp
      · subst hk
        exact hv
      · exact hd p (List.mem_cons_of_mem _ hp)
    · simp only [if_neg hk, List.mem_cons] at hp
      rcases hp with rfl | hp
      · exact hd _ (List.mem_cons_self _ _)
      · exact dictInsert_forall_pair rest k v (fun q hq => hd q (List.mem_cons_of_mem _ hq)) hv p hp

theorem lookupTok_append_left {α : Type} :
    ∀ {d : List (String × α)} {c : String} {x : α},
      lookupTok d c = some x → ∀ d2, lookupTok (d ++ d2) c = some x
  | [], c, x, h, _ => by simp [lookupTok] at h
  | (k0, v0) :: rest, c, x, h, d2 => by
    simp only [lookupTok] at h ⊢
    by_cases hk : k0 = c
    · simpa [hk] using h
    · rw [if_neg hk] at h ⊢
      exact lookupTok_append_left h d2

theorem lookupTok_append_right {α : Type} :
    ∀ {d : List (String × α)} {c : String},
      lookupTok d c = none → ∀ d2, lookupTok (d ++ d2) c = lookupTok d2 c
  | [], c, _, d2 => rfl
  | (k0, v0) :: rest, c, h, d2 => by
    simp only [lookupTok] at h ⊢
    by_cases hk : k0 = c
    · simp [hk] at h
    · rw [if_neg hk] at h ⊢
      exact lookupTok_append_right h d2

theorem countKey_append {α : Type} :
    ∀ (d d2 : List (String × α)) (c : String),
      countKey (d ++ d2) c = countKey d c + countKey d2 c
  | [], d2, c => by simp [countKey]
  | (k0, v0) :: rest, d2, c => by
    change (if k0 = c then 1 else 0) + countKey (rest ++ d2) c =
      ((if k0 = c then 1 else 0) + countKey rest c) + countKey d2 c
    rw [countKey_append rest d2 c]
    omega

theorem countKey_eq_zero {α : Type} :
    ∀ {d : List (String × α)} {c : String}, lookupTok d c = none → countKey d c = 0
  | [], c, _ => rfl
  | (k0, v0) :: rest, c, h => by
    simp only [lookupTok] at h
    by_cases hk : k0 = c
    · simp [hk] at h
    · rw [if_neg hk] at h
      simp [countKey, hk, countKey_eq_zero h]

theorem countKey_pos_of_lookup {α : Type} :
    ∀ {d : List (String × α)} {c : String} {x : α},
      lookupTok d c = some x → 1 ≤ countKey d c
  | [], c, x, h => by simp [lookupTok] at h
  | (k0, v0) :: rest, c, x, h => by
    simp only [lookupTok] at h
    by_cases hk : k0 = c
    · simp [countKey, hk]
    · rw [if_neg hk] at h
      simp only [countKey, if_neg hk]
      have := countKey_pos_of_lookup h
      omega

theorem lookupTok_mem {α : Type} :
    ∀ {d : List (String × α)} {c : String} {x : α},
      lookupTok d c = some x → (c, x) ∈ d
  | [], c, x, h => by simp [lookupTok] at h
  | (k0, v0) :: rest, c, x, h => by
    simp only [lookupTok] at h
    by_cases hk : k0 = c
    · rw [if_pos hk, Option.some.injEq] at h
      subst hk
      subst h
      exact List.mem_cons_self _ _
    · rw [if_neg hk] at h
      exact List.mem_cons_of_mem _ (lookupTok_mem h)

/-- Registering into the sensor set on first encounter: the `if channel not
in sensors` step of the loop. -/
theorem addStep_lookup_mono {sensors : SensorMap} {n : String} {s : Sensor} {c : String}
    {x : Sensor} (h : lookupTok sensors c = some x) :
    lookupTok (if hasKey sensors n then sensors else sensors ++ [(n, s)]) c = some x := by
  by_cases hn : hasKey sensors n
  · rwa [if_pos hn]
  · rw [if_neg hn]
    exact lookupTok_append_left h _

theorem not_hasKey_lookup_none {α : Type} {d : List (String × α)} {n : String}
    (hn : ¬ hasKey d n = true) : lookupTok d n = none := by
  cases hl : lookupTok d n with
  | none => rfl
  | some x => exact absurd (by simp [hasKey, hl]) hn

theorem addStep_count {sensors : SensorMap} {n : String} {s : Sensor} {c : String}
    (h : countKey sensors c ≤ 1) :
    countKey (if hasKey sensors n then sensors else sensors ++ [(n, s)]) c ≤ 1 := by
  by_cases hn : hasKey sensors n
  · rwa [if_pos hn]
  · rw [if_neg hn, countKey_append]
    have hnone := not_hasKey_lookup_none hn
    by_cases hc : n = c
    · subst hc
      have h0 : countKey sensors n = 0 := countKey_eq_zero hnone
      have h1 : countKey [(n, s)] n = 1 := by simp [countKey]
      omega
    · have h1 : countKey [(n, s)] c = 0 := by simp [countKey, hc]
      omega

theorem addStep_self {sensors : SensorMap} {n : String} {s : Sensor} :
    (lookupTok (if hasKey sensors n then sensors else sensors ++ [(n, s)]) n).isSome = true := by
  by_cases hn : hasKey sensors n
  · rwa [if_pos hn]
  · rw [if_neg hn]
    rw [lookupTok_append_right (not_hasKey_lookup_none hn)]
    simp [lookupTok]

theorem processEntries_sensors (info : AnnInfo) (sp : String) (it : Bool) (tok : String) :
    ∀ (entries : List SensorFrameRec) (sensors : SensorMap) (frame : FrameT)
      (s' : SensorMap) (f : FrameT),
      processEntries info sp it tok entries sensors frame = .ok (s', f) →
      (∀ c x, lookupTok sensors c = some x → lookupTok s' c = some x) ∧
      (∀ c, countKey sensors c ≤ 1 → countKey s' c ≤ 1) ∧
      ((∀ q ∈ frame, (lookupTok sensors q.1).isSome = true) →
        ∀ q ∈ f, (lookupTok s' q.1).isSome = true)
  | [], sensors, frame, s', f, hok => by
    simp only [processEntries, Except.ok.injEq, Prod.mk.injEq] at hok
    obtain ⟨rfl, rfl⟩ := hok
    exact ⟨fun _ _ h => h, fun _ h => h, fun h => h⟩
  | sf :: rest, sensors, frame, s', f, hok => by
    simp only [processEntries] at hok
    obtain ⟨cal, hc, hok⟩ := exBind_ok hok
    obtain ⟨common, hcm, hok⟩ := exBind_ok hok
    obtain ⟨bx, hb, hok⟩ := exBind_ok hok
    have ih := processEntries_sensors info sp it tok rest _ _ s' f hok
    refine ⟨?_, ?_, ?_⟩
    · intro c x h
      exact ih.1 c x (addStep_lookup_mono h)
    · intro c h
      exact ih.2.1 c (addStep_count h)
    · intro h
      refine ih.2.2 ?_
      refine dictInsert_forall_pair
        (P := fun (q : String × Data) =>
          (lookupTok (if hasKey sensors common.channel then sensors
            else sensors ++ [(common.channel, getSensor common.modality common.channel cal)])
            q.1).isSome = true) _ _ _ ?_ ?_
      · intro q hq
        obtain ⟨x, hx⟩ := Option.isSome_iff_exists.1 (h q hq)
        rw [addStep_lookup_mono hx]
        rfl
      · exact addStep_self

theorem loadFrame_sensors (info : AnnInfo) (sp : String) (it : Bool) (sensors : SensorMap)
    (tok : String) (s' : SensorMap) (f : FrameT)
    (hok : loadFrameAndSensor info sp it sensors tok = .ok (s', f)) :
    (∀ c x, lookupTok sensors c = some x → lookupTok s' c = some x) ∧
    (∀ c, countKey sensors c ≤ 1 → countKey s' c ≤ 1) ∧
    (∀ q ∈ f, (lookupTok s' q.1).isSome = true) := by
  simp only [loadFrameAndSensor] at hok
  obtain ⟨fd, hfd, hok⟩ := exBind_ok hok
  have h := processEntries_sensors info sp it tok fd sensors [] s' f hok
  exact ⟨h.1, h.2.1, h.2.2 (by simp)⟩

theorem runChain_sensors (info : AnnInfo) (sp : String) (it : Bool) :
    ∀ (toks : List String) (sensors : SensorMap) (s' : SensorMap) (fs : List FrameT),
      runChain info sp it toks sensors = .ok (s', fs) →
      (∀ c x, lookupTok sensors c = some x → lookupTok s' c = some x) ∧
      (∀ c, countKey sensors c ≤ 1 → countKey s' c ≤ 1) ∧
      (∀ f ∈ fs, ∀ q ∈ f, (lookupTok s' q.1).isSome = true)
  | [], sensors, s', fs, hok => by
    simp only [runChain, Except.ok.injEq, Prod.mk.injEq] at hok
    obtain ⟨rfl, rfl⟩ := hok
    exact ⟨fun _ _ h => h, fun _ h => h, by simp⟩
  | t :: rest, sensors, s', fs, hok => by
    simp only [runChain] at hok
    obtain ⟨p1, hl, hok⟩ := exBind_ok hok
    obtain ⟨s1, f1⟩ := p1
    obtain ⟨p2, hr, hok⟩ := exBind_ok hok
    obtain ⟨s2, fs'⟩ := p2
    simp only [Except.ok.injEq, Prod.mk.injEq] at hok
    obtain ⟨rfl, rfl⟩ := hok
    have hload := loadFrame_sensors info sp it sensors t s1 f1 hl
    have ih := runChain_sensors info sp it rest s1 s2 fs' hr
    refine ⟨fun c x h => ih.1 c x (hload.1 c x h), fun c h => ih.2.1 c (hload.2.1 c h), ?_⟩
    intro f hf q hq
    rcases List.mem_cons.1 hf with rfl | hf
    · obtain ⟨x, hx⟩ := Option.isSome_iff_exists.1 (hload.2.2 q hq)
      rw [ih.1 q.1 x hx]
      rfl
    · exact ih.2.2 f hf q hq

/-- C7: sensor registration is idempotent: lookups of already registered
channels are preserved across any number of frames, key counts never exceed
one, and a channel first seen during the run ends with exactly one entry. -/
theorem c7_sensor_registration_idempotent (info : AnnInfo) (sp : String) (it : Bool)
    (toks : List String) (sensors : SensorMap) (s' : SensorMap) (fs : List FrameT)
    (hok : runChain info sp it toks sensors = .ok (s', fs)) :
    (∀ c x, lookupTok sensors c = some x → lookupTok s' c = some x) ∧
    (∀ c, countKey sensors c ≤ 1 → countKey s' c ≤ 1) ∧
    (∀ c, countKey sensors c = 0 → (∃ f ∈ fs, hasKey f c = true) → countKey s' c = 1) := by
  have h := runChain_sensors info sp it toks sensors s' fs hok
  refine ⟨h.1, h.2.1, ?_⟩
  rintro c h0 ⟨f, hf, hk⟩
  rw [hasKey] at hk
  obtain ⟨d, hd⟩ := Option.isSome_iff_exists.1 hk
  have hmem : (c, d) ∈ f := lookupTok_mem hd
  have hsome := h.2.2 f hf (c, d) hmem
  obtain ⟨x, hx⟩ := Option.isSome_iff_exists.1 hsome
  have h1 : 1 ≤ countKey s' c := countKey_pos_of_lookup hx
  have h2 : countKey s' c ≤ 1 := h.2.1 c (by omega)
  omega

/-- C7 witness: visiting sample `s1` twice registers the `LIDAR_TOP` channel
exactly once. -/
theorem c7_sensor_registration_idempotent_witness :
    ∃ s' fs, runChain fxInfo "p" false ["s1", "s1"] [] = .ok (s', fs) ∧
      countKey s' "LIDAR_TOP" = 1 := by
  have hok : runChain fxInfo "p" false ["s1", "s1"] [] = .ok (_, _) := rfl
  refine ⟨_, _, hok, ?_⟩
  exact (c7_sensor_registration_idempotent fxInfo "p" false ["s1", "s1"] [] _ _ hok).2.2
    "LIDAR_TOP" rfl ⟨_, List.mem_cons_self _ _, rfl⟩

theorem resolveBox3d_test (info : AnnInfo) (tok : String) (ty n : String)
    (sensors : SensorMap) (sf : SensorFrameRec) :
    resolveBox3d info tok true ty n sensors sf = .ok none := by
  simp [resolveBox3d]

theorem processEntries_test (info : AnnInfo) (sp : String) (tok : String) :
    ∀ (entries : List SensorFrameRec) (sensors : SensorMap) (frame : FrameT)
      (s' : SensorMap) (f : FrameT),
      (∀ p ∈ frame, p.2.box3d = none) →
      processEntries info sp true tok entries sensors frame = .ok (s', f) →
      ∀ p ∈ f, p.2.box3d = none
  | [], sensors, frame, s', f, hframe, hok => by
    simp only [processEntries, Except.ok.injEq, Prod.mk.injEq] at hok
    obtain ⟨rfl, rfl⟩ := hok
    exact hframe
  | sf :: rest, sensors, frame, s', f, hframe, hok => by
    simp only [processEntries] at hok
    obtain ⟨cal, hc, hok⟩ := exBind_ok hok
    obtain ⟨common, hcm, hok⟩ := exBind_ok hok
    obtain ⟨bx, hb, hok⟩ := exBind_ok hok
    rw [resolveBox3d_test, Except.ok.injEq] at hb
    subst hb
    refine processEntries_test info sp tok rest _ _ s' f ?_ hok
    exact dictInsert_forall (P := fun (d : Data) => d.box3d = none) _ _ _ hframe rfl

theorem loadFrame_test (info : AnnInfo) (sp : String) (sensors : SensorMap)
    (tok : String) (s' : SensorMap) (f : FrameT)
    (hok : loadFrameAndSensor info sp true sensors tok = .ok (s', f)) :
    ∀ p ∈ f, p.2.box3d = none := by
  simp only [loadFrameAndSensor] at hok
  obtain ⟨fd, hfd, hok⟩ := exBind_ok hok
  exact processEntries_test info sp tok fd sensors [] s' f (by simp) hok

theorem sceneLoop_test (info : AnnInfo) (sp : String) :
    ∀ (fuel : Nat) (tok : String) (seg seg' : FusionSegment),
      (∀ f ∈ seg.frames, ∀ p ∈ f, p.2.box3d = none) →
      sceneLoop info sp true fuel tok seg = .ok seg' →
      ∀ f ∈ seg'.frames, ∀ p ∈ f, p.2.box3d = none
  | 0, tok, seg, seg', hseg, hok => by
    by_cases ht : tok = ""
    · simp only [sceneLoop, if_pos ht, Except.ok.injEq] at hok
      subst hok
      exact hseg
    · simp [sceneLoop, if_neg ht] at hok
  | fuel + 1, tok, seg, seg', hseg, hok => by
    by_cases ht : tok = ""
    · simp only [sceneLoop, if_pos ht, Except.ok.injEq] at hok
      subst hok
      exact hseg
    · simp only [sceneLoop, if_neg ht] at hok
      obtain ⟨p1, hl, hok⟩ := exBind_ok hok
      obtain ⟨s1, f1⟩ := p1
      obtain ⟨samp, hs, hok⟩ := exBind_ok hok
      refine sceneLoop_test info sp fuel samp.next _ seg' ?_ hok
      intro f hf
      rcases List.mem_append.1 hf with hf | hf
      · exact hseg f hf
      · rw [List.mem_singleton] at hf
        subst hf
        exact loadFrame_test info sp seg.sensors tok s1 f hl

/-- C3: for a subset whose name ends in "test", the annotation tables are
never loaded (the built annotation info carries none of them, whatever the
files hold), and no data record of any generated segment ever carries
3D box label data. -/
theorem c3_test_subset_never_labeled (subset : String) (raw : RawTables)
    (h : isTestSubset subset = true) :
    ∃ info, getAnnotationInfo raw (isTestSubset subset) = .ok info ∧
      info.sample_anns = none ∧ info.instances = none ∧ info.categories = none ∧
      info.attributes = none ∧ info.visibilities = none ∧
      ∀ sp fuel scene seg',
        generateSegment info subset sp (isTestSubset subset) fuel scene = .ok seg' →
        ∀ f ∈ seg'.frames, ∀ p ∈ f, p.2.box3d = none := by
  rw [h]
  refine ⟨_, rfl, rfl, rfl, rfl, rfl, rfl, ?_⟩
  intro sp fuel scene seg' hok
  exact sceneLoop_test _ sp fuel scene.first_sample_token _ seg' (by simp) hok

/-- C3 witness: with the annotation table files absent, the test subset
`v1.0-test` still loads, produces a frame, and its data carries no labels. -/
theorem c3_test_subset_never_labeled_witness :
    isTestSubset "v1.0-test" = true ∧
    ∃ seg', generateSegment fxInfoTest "v1.0-test" "p" true 1 fxScene = .ok seg' ∧
      seg'.frames ≠ [] ∧ ∀ f ∈ seg'.frames, ∀ p ∈ f, p.2.box3d = none := by
  have ht : isTestSubset "v1.0-test" = true := by decide
  obtain ⟨info, hinfo, h1, h2, h3, h4, h5, hall⟩ :=
    c3_test_subset_never_labeled "v1.0-test" fxRaw ht
  rw [ht] at hinfo
  have hcmp : getAnnotationInfo fxRaw true = .ok fxInfoTest := rfl
  rw [hcmp, Except.ok.injEq] at hinfo
  subst hinfo
  have hrun : generateSegment fxInfoTest "v1.0-test" "p" true 1 fxScene = .ok (_) := rfl
  refine ⟨ht, _, hrun, ?_, ?_⟩
  · simp [dictInsert]
  · intro f hf p hp
    refine hall "p" 1 fxScene _ ?_ f hf p hp
    rw [ht]
    exact hrun

theorem getKey_ok {α : Type} {table : String} {tbl : List (String × α)} {k : String} {v : α} :
    getKey table tbl k = .ok v ↔ lookupTok tbl k = some v := by
  unfold getKey
  cases h : lookupTok tbl k <;> simp [h]

theorem processEntries_timestamp (info : AnnInfo) (sp : String) (it : Bool) (tok : String)
    (fd : List SensorFrameRec) :
    ∀ (entries : List SensorFrameRec) (sensors : SensorMap) (frame : FrameT)
      (s' : SensorMap) (f : FrameT),
      (∀ sf ∈ entries, sf ∈ fd) →
      (∀ p ∈ frame, ∃ sf ∈ fd, p.2.timestamp = (sf.timestamp : ℚ) / 10 ^ 6) →
      processEntries info sp it tok entries sensors frame = .ok (s', f) →
      ∀ p ∈ f, ∃ sf ∈ fd, p.2.timestamp = (sf.timestamp : ℚ) / 10 ^ 6
  | [], sensors, frame, s', f, _, hframe, hok => by
    simp only [processEntries, Except.ok.injEq, Prod.mk.injEq] at hok
    obtain ⟨rfl, rfl⟩ := hok
    exact hframe
  | sf :: rest, sensors, frame, s', f, hmem, hframe, hok => by
    simp only [processEntries] at hok
    obtain ⟨cal, hc, hok⟩ := exBind_ok hok
    obtain ⟨common, hcm, hok⟩ := exBind_ok hok
    obtain ⟨bx, hb, hok⟩ := exBind_ok hok
    refine processEntries_timestamp info sp it tok fd rest _ _ s' f
      (fun q hq => hmem q (List.mem_cons_of_mem _ hq)) ?_ hok
    refine dictInsert_forall
      (P := fun (d : Data) => ∃ sf ∈ fd, d.timestamp = (sf.timestamp : ℚ) / 10 ^ 6)
      _ _ _ hframe ?_
    exact ⟨sf, hmem sf (List.mem_cons_self _ _), rfl⟩

/-- C6: every data record's timestamp is its source entry's integer
microsecond timestamp divided by 10^6, and 1000000 microseconds is exactly
1 second. -/
theorem c6_timestamp_seconds (info : AnnInfo) (sp : String) (it : Bool) (sensors : SensorMap)
    (tok : String) (s' : SensorMap) (f : FrameT)
    (hok : loadFrameAndSensor info sp it sensors tok = .ok (s', f)) :
    (∀ p ∈ f, ∃ fd, lookupTok info.frame_data tok = some fd ∧
        ∃ sf ∈ fd, p.2.timestamp = (sf.timestamp : ℚ) / 10 ^ 6) ∧
    ((1000000 : ℤ) : ℚ) / 10 ^ 6 = 1 := by
  constructor
  · simp only [loadFrameAndSensor] at hok
    obtain ⟨fd, hfd, hok⟩ := exBind_ok hok
    rw [getKey_ok] at hfd
    intro p hp
    exact ⟨fd, hfd,
      processEntries_timestamp info sp it tok fd fd sensors [] s' f (fun _ h => h)
        (by simp) hok p hp⟩
  · norm_num

/-- C6 witness: the fixture's lidar entry carries the microsecond timestamp
1000000 and its data record's timestamp is exactly 1 second. -/
theorem c6_timestamp_seconds_witness :
    ∃ s' f, loadFrameAndSensor fxInfo "p" false [] "s1" = .ok (s', f) ∧
      f ≠ [] ∧ ∀ p ∈ f, p.2.timestamp = 1 := by
  refine ⟨_, _, rfl, ?_, ?_⟩
  · simp [dictInsert]
  · have hr : loadFrameAndSensor fxInfo "p" false [] "s1" = .ok (_, _) := rfl
    have h := (c6_timestamp_seconds fxInfo "p" false [] "s1" _ _ hr).1
    intro p hp
    obtain ⟨fd, hfd, sf, hsf, hts⟩ := h p hp
    have heq : lookupTok fxInfo.frame_data "s1" = some [fxSf1] := rfl
    rw [heq, Option.some.injEq] at hfd
    subst hfd
    rw [List.mem_singleton] at hsf
    subst hsf
    rw [hts]
    norm_num [fxSf1]

theorem exMapM_ok {α β : Type} {f : α → Except LoadErr β} :
    ∀ {l : List α} {out : List β}, exMapM f l = .ok out →
      out.length = l.length ∧
      ∀ (i : Nat) (a : α), l[i]? = some a → ∃ b, f a = .ok b ∧ out[i]? = some b
  | [], out, h => by
    simp only [exMapM, Except.ok.injEq] at h
    subst h
    exact ⟨rfl, by simp⟩
  | a :: rest, out, h => by
    simp only [exMapM] at h
    obtain ⟨b, hb, h⟩ := exBind_ok h
    obtain ⟨bs, hbs, h⟩ := exBind_ok h
    rw [Except.ok.injEq] at h
    subst h
    have ih := exMapM_ok hbs
    refine ⟨by simp [ih.1], ?_⟩
    intro i x hx
    cases i with
    | zero =>
      simp only [List.getElem?_cons_zero, Option.some.injEq] at hx
      subst hx
      exact ⟨b, hb, by simp⟩
    | succ j =>
      simp only [List.getElem?_cons_succ] at hx ⊢
      exact ih.2 j x hx

theorem chain_functional {m : List (String × SampleRec)} {t : String} {l1 l2 : List String}
    (h1 : IsChain m t l1) (h2 : IsChain m t l2) : l1 = l2 := by
  induction h1 generalizing l2 with
  | nil =>
    cases h2 with
    | nil => rfl
    | cons hne _ _ => exact absurd rfl hne
  | cons hne hl hc ih =>
    cases h2 with
    | nil => exact absurd rfl hne
    | cons hne2 hl2 hc2 =>
      rw [hl] at hl2
      rw [Option.some.injEq] at hl2
      subst hl2
      rw [ih hc2]

theorem chain_drop {m : List (String × SampleRec)} {t : String} {l : List String}
    (h : IsChain m t l) :
    ∀ (i : Nat) (hi : i < l.length), IsChain m (l.get ⟨i, hi⟩) (l.drop i) := by
  induction h with
  | nil =>
    intro i hi
    exact absurd hi (by simp)
  | cons hne hl hc ih =>
    intro i hi
    cases i with
    | zero => exact IsChain.cons hne hl hc
    | succ j => exact ih j (by simpa using hi)

theorem chain_nodup {m : List (String × SampleRec)} {t : String} {l : List String}
    (h : IsChain m t l) : l.Nodup := by
  rw [List.nodup_iff_injective_get]
  intro i j hij
  have hi := chain_drop h i.1 i.2
  have hj := chain_drop h j.1 j.2
  rw [hij] at hi
  have hd := chain_functional hi hj
  have hlen := congrArg List.length hd
  simp only [List.length_drop] at hlen
  have h1 := i.2
  have h2 := j.2
  exact Fin.ext (by omega)

theorem sceneLoop_eq_runChain (info : AnnInfo) (sp : String) (it : Bool)
    {tok : String} {toks : List String} (h : IsChain info.samples tok toks) :
    ∀ (fuel : Nat) (seg : FusionSegment), toks.length ≤ fuel →
      sceneLoop info sp it fuel tok seg =
        (runChain info sp it toks seg.sensors).map
          (fun p => { seg with sensors := p.1, frames := seg.frames ++ p.2 }) := by
  induction h with
  | nil =>
    intro fuel seg _
    cases fuel with
    | zero => simp [sceneLoop, runChain, Except.map]
    | succ n => simp [sceneLoop, runChain, Except.map]
  | @cons tok' s rest hne hl hc ih =>
    intro fuel seg hf
    cases fuel with
    | zero => exact absurd hf (by simp)
    | succ n =>
      simp only [sceneLoop, if_neg hne]
      cases hload : loadFrameAndSensor info sp it seg.sensors tok' with
      | error e => simp [runChain, hload, Except.map, exBind_fail]
      | ok p =>
        obtain ⟨s1, f1⟩ := p
        have hk : getKey "samples" info.samples tok' = .ok s := by
          simp [getKey, hl]
        simp only [runChain, hload, exBind_pure, hk]
        rw [ih n { seg with sensors := s1, frames := seg.frames ++ [f1] } (by simpa using hf)]
        cases runChain info sp it _ s1 with
        | error e => simp [Except.map, exBind_fail]
        | ok q =>
          obtain ⟨s2, fs⟩ := q
          simp [Except.map, exBind_pure, List.append_assoc]

theorem runChain_length (info : AnnInfo) (sp : String) (it : Bool) :
    ∀ (toks : List String) (sensors : SensorMap) (s' : SensorMap) (fs : List FrameT),
      runChain info sp it toks sensors = .ok (s', fs) → fs.length = toks.length
  | [], sensors, s', fs, hok => by
    simp only [runChain, Except.ok.injEq, Prod.mk.injEq] at hok
    obtain ⟨rfl, rfl⟩ := hok
    rfl
  | t :: rest, sensors, s', fs, hok => by
    simp only [runChain] at hok
    obtain ⟨p1, hl, hok⟩ := exBind_ok hok
    obtain ⟨s1, f1⟩ := p1
    obtain ⟨p2, hr, hok⟩ := exBind_ok hok
    obtain ⟨s2, fs'⟩ := p2
    simp only [Except.ok.injEq, Prod.mk.injEq] at hok
    obtain ⟨rfl, rfl⟩ := hok
    simp [runChain_length info sp it rest s1 s2 fs' hr]

/-- C2: the while loop of a scene is exactly the structural traversal of
the chain of samples reachable from the first token via `next` (stopping at
the first empty token), and that traversal appends exactly one frame per
visited sample, in traversal order. -/
theorem c2_linked_list_traversal (info : AnnInfo) (sp : String) (it : Bool)
    (first : String) (toks : List String) (hch : IsChain info.samples first toks)
    (fuel : Nat) (seg : FusionSegment) (hf : toks.length ≤ fuel) :
    sceneLoop info sp it fuel first seg =
      (runChain info sp it toks seg.sensors).map
        (fun p => { seg with sensors := p.1, frames := seg.frames ++ p.2 }) ∧
    ∀ s' fs, runChain info sp it toks seg.sensors = .ok (s', fs) →
      fs.length = toks.length :=
  ⟨sceneLoop_eq_runChain info sp it hch fuel seg hf,
   fun s' fs h => runChain_length info sp it toks seg.sensors s' fs h⟩

/-- C2 witness: the fixture scene's chain is `["s1"]`; one iteration of the
loop equals the structural traversal and appends exactly one frame. -/
theorem c2_linked_list_traversal_witness :
    ∃ r, sceneLoop fxInfo "p" false 1 "s1" fxSeg =
        (runChain fxInfo "p" false ["s1"] fxSeg.sensors).map
          (fun p => { fxSeg with sensors := p.1, frames := fxSeg.frames ++ p.2 }) ∧
      runChain fxInfo "p" false ["s1"] fxSeg.sensors = .ok r ∧ r.2.length = 1 := by
  have hch : IsChain fxInfo.samples "s1" ["s1"] :=
    IsChain.cons (by decide) rfl IsChain.nil
  have h := c2_linked_list_traversal fxInfo "p" false "s1" ["s1"] hch 1 fxSeg (by decide)
  have hrun : runChain fxInfo "p" false ["s1"] fxSeg.sensors = .ok (_) := rfl
  exact ⟨_, h.1, hrun, h.2 _ _ hrun⟩

theorem getKey_no_fuel {α : Type} (table : String) (tbl : List (String × α)) (k : String) :
    getKey table tbl k ≠ .error .fuelExhausted := by
  unfold getKey
  cases lookupTok tbl k <;> simp

theorem annKey_no_fuel {α : Type} (k : String) (o : Option α) :
    annKey k o ≠ .error .fuelExhausted := by
  unfold annKey
  cases o <;> simp

theorem attrStep_no_fuel (info : AnnInfo) (attrs : List (String × String)) (t : String) :
    attrStep info attrs t ≠ .error .fuelExhausted := by
  intro h
  simp only [attrStep] at h
  rcases exBind_err h with h | ⟨attrTbl, _, h⟩
  · exact annKey_no_fuel _ _ h
  rcases exBind_err h with h | ⟨attrRec, _, h⟩
  · exact getKey_no_fuel _ _ _ h
  cases hs : rsplitDot1 attrRec.name with
  | none => rw [hs] at h; simp at h
  | some p =>
    obtain ⟨g, v⟩ := p
    rw [hs] at h
    rcases exBind_err h with h | ⟨mk, _, h⟩
    · exact getKey_no_fuel _ _ _ h
    · simp at h

theorem attrFold_no_fuel (info : AnnInfo) :
    ∀ (ts : List String) (attrs : List (String × String)),
      attrFold info ts attrs ≠ .error .fuelExhausted
  | [], attrs => by simp [attrFold]
  | t :: rest, attrs => by
    intro h
    simp only [attrFold] at h
    rcases exBind_err h with h | ⟨attrs', _, h⟩
    · exact attrStep_no_fuel info attrs t h
    · exact attrFold_no_fuel info rest attrs' h

theorem getLabeledBox_no_fuel (ann : InstAnnRec) (info : AnnInfo) :
    getLabeledBox ann info ≠ .error .fuelExhausted := by
  intro h
  simp only [getLabeledBox] at h
  rcases exBind_err h with h | ⟨instTbl, _, h⟩
  · exact annKey_no_fuel _ _ h
  rcases exBind_err h with h | ⟨catTbl, _, h⟩
  · exact annKey_no_fuel _ _ h
  rcases exBind_err h with h | ⟨instRec, _, h⟩
  · exact getKey_no_fuel _ _ _ h
  rcases exBind_err h with h | ⟨catRec, _, h⟩
  · exact getKey_no_fuel _ _ _ h
  rcases exBind_err h with h | ⟨attrs, _, h⟩
  · exact attrFold_no_fuel info _ _ h
  rcases exBind_err h with h | ⟨visTbl, _, h⟩
  · exact annKey_no_fuel _ _ h
  rcases exBind_err h with h | ⟨visRec, _, h⟩
  · exact getKey_no_fuel _ _ _ h
  · simp at h

theorem exMapM_no_fuel {α β : Type} {f : α → Except LoadErr β}
    (hf : ∀ a, f a ≠ .error .fuelExhausted) :
    ∀ (l : List α), exMapM f l ≠ .error .fuelExhausted
  | [] => by simp [exMapM]
  | a :: rest => by
    intro h
    simp only [exMapM] at h
    rcases exBind_err h with h | ⟨b, _, h⟩
    · exact hf a h
    rcases exBind_err h with h | ⟨bs, _, h⟩
    · exact exMapM_no_fuel hf rest h
    · simp at h

theorem getLabels_no_fuel (tok : String) (ego : EgoPoseRec) (extr : Transform3D)
    (info : AnnInfo) : getLabels tok ego extr info ≠ .error .fuelExhausted := by
  intro h
  simp only [getLabels] at h
  rcases exBind_err h with h | ⟨sa, _, h⟩
  · exact annKey_no_fuel _ _ h
  cases hs : lookupTok sa tok with
  | none => rw [hs] at h; simp at h
  | some anns =>
    rw [hs] at h
    refine exMapM_no_fuel ?_ anns h
    intro a hcon
    rcases exBind_err hcon with hcon | ⟨b, _, hcon⟩
    · exact getLabeledBox_no_fuel a info hcon
    · simp at hcon

theorem resolveBox3d_no_fuel (info : AnnInfo) (tok : String) (it : Bool)
    (ty n : String) (sensors : SensorMap) (sf : SensorFrameRec) :
    resolveBox3d info tok it ty n sensors sf ≠ .error .fuelExhausted := by
  intro h
  simp only [resolveBox3d] at h
  by_cases hc : (!it && ty == "lidar") = true
  · rw [if_pos hc] at h
    rcases exBind_err h with h | ⟨ego, _, h⟩
    · exact getKey_no_fuel _ _ _ h
    rcases exBind_err h with h | ⟨sensorObj, _, h⟩
    · exact getKey_no_fuel _ _ _ h
    rcases exBind_err h with h | ⟨labels, _, h⟩
    · exact getLabels_no_fuel _ _ _ _ h
    · simp at h
  · rw [if_neg hc] at h
    simp at h

theorem processEntries_no_fuel (info : AnnInfo) (sp : String) (it : Bool) (tok : String) :
    ∀ (entries : List SensorFrameRec) (sensors : SensorMap) (frame : FrameT),
      processEntries info sp it tok entries sensors frame ≠ .error .fuelExhausted
  | [], sensors, frame => by simp [processEntries]
  | sf :: rest, sensors, frame => by
    intro h
    simp only [processEntries] at h
    rcases exBind_err h with h | ⟨cal, _, h⟩
    · exact getKey_no_fuel _ _ _ h
    rcases exBind_err h with h | ⟨common, _, h⟩
    · exact getKey_no_fuel _ _ _ h
    rcases exBind_err h with h | ⟨bx, _, h⟩
    · exact resolveBox3d_no_fuel _ _ _ _ _ _ _ h
    · exact processEntries_no_fuel info sp it tok rest _ _ h

theorem loadFrame_no_fuel (info : AnnInfo) (sp : String) (it : Bool)
    (sensors : SensorMap) (tok : String) :
    loadFrameAndSensor info sp it sensors tok ≠ .error .fuelExhausted := by
  intro h
  simp only [loadFrameAndSensor] at h
  rcases exBind_err h with h | ⟨fd, _, h⟩
  · exact getKey_no_fuel _ _ _ h
  · exact processEntries_no_fuel info sp it tok fd sensors [] h

theorem runChain_no_fuel (info : AnnInfo) (sp : String) (it : Bool) :
    ∀ (toks : List String) (sensors : SensorMap),
      runChain info sp it toks sensors ≠ .error .fuelExhausted
  | [], sensors => by simp [runChain]
  | t :: rest, sensors => by
    intro h
    simp only [runChain] at h
    rcases exBind_err h with h | ⟨p1, _, h⟩
    · exact loadFrame_no_fuel info sp it sensors t h
    obtain ⟨s1, f1⟩ := p1
    rcases exBind_err h with h | ⟨p2, _, h⟩
    · exact runChain_no_fuel info sp it rest s1 h
    · simp at h

/-- C9: a finite chain that resolves every token and ends at the empty
token is traversed to completion: the visited tokens are pairwise distinct
(each sample is visited exactly once) and the loop never runs out of fuel
once granted the chain's length. -/
theorem c9_chain_traversal_terminates (info : AnnInfo) (sp : String) (it : Bool)
    (first : String) (toks : List String) (hch : IsChain info.samples first toks) :
    toks.Nodup ∧
    ∀ fuel seg, toks.length ≤ fuel →
      sceneLoop info sp it fuel first seg ≠ .error .fuelExhausted := by
  refine ⟨chain_nodup hch, ?_⟩
  intro fuel seg hf h
  rw [sceneLoop_eq_runChain info sp it hch fuel seg hf] at h
  cases hr : runChain info sp it toks seg.sensors with
  | error e =>
    rw [hr] at h
    simp only [Except.map] at h
    rw [Except.error.injEq] at h
    subst h
    exact runChain_no_fuel info sp it toks seg.sensors hr
  | ok p =>
    rw [hr] at h
    simp [Except.map] at h

/-- C9 witness: the fixture chain `["s1"]` is duplicate-free and the loop
with fuel 1 does not exhaust its fuel. -/
theorem c9_chain_traversal_terminates_witness :
    (["s1"] : List String).Nodup ∧
    sceneLoop fxInfo "p" false 1 "s1" fxSeg ≠ .error .fuelExhausted := by
  have hch : IsChain fxInfo.samples "s1" ["s1"] :=
    IsChain.cons (by decide) rfl IsChain.nil
  have h := c9_chain_traversal_terminates fxInfo "p" false "s1" ["s1"] hch
  exact ⟨h.1, h.2 1 fxSeg (by decide)⟩

/-- C1: for an annotated sample of a non-test frame, the labels are exactly
the resolved boxes, each transformed by the ONE inverse composite transform
`(ego_pose * lidar_to_ego).inverse()`, with the box size unchanged by the
transform. -/
theorem c1_single_inverse_transform (tok : String) (ego : EgoPoseRec)
    (lidar_to_ego : Transform3D) (info : AnnInfo)
    (sa : List (String × List InstAnnRec)) (anns : List InstAnnRec)
    (labels : List LabeledBox3D)
    (hsa : info.sample_anns = some sa)
    (hanns : lookupTok sa tok = some anns)
    (hok : getLabels tok ego lidar_to_ego info = .ok labels) :
    labels.length = anns.length ∧
    ∀ (i : Nat) (a : InstAnnRec), anns[i]? = some a → ∃ b, getLabeledBox a info = .ok b ∧
      labels[i]? = some (transformBox ((egoToTransform ego).mul lidar_to_ego).inverse b) ∧
      (transformBox ((egoToTransform ego).mul lidar_to_ego).inverse b).size = b.size := by
  simp only [getLabels, hsa, annKey, exBind_pure, hanns] at hok
  have h := exMapM_ok hok
  refine ⟨h.1, ?_⟩
  intro i a ha
  obtain ⟨c, hc, hout⟩ := h.2 i a ha
  obtain ⟨b, hb, hc2⟩ := exBind_ok hc
  rw [Except.ok.injEq] at hc2
  subst hc2
  exact ⟨b, hb, hout, rfl⟩

/-- C1 witness: the single annotation of sample `s1` is emitted as the
resolved box transformed by the inverse composite transform, size kept. -/
theorem c1_single_inverse_transform_witness :
    ∃ labels, getLabels "s1" fxEgo fxTid fxInfo = .ok labels ∧ labels.length = 1 ∧
      ∃ b, getLabeledBox fxAnn fxInfo = .ok b ∧
        labels[0]? = some (transformBox ((egoToTransform fxEgo).mul fxTid).inverse b) ∧
        (transformBox ((egoToTransform fxEgo).mul fxTid).inverse b).size = b.size := by
  have hok : getLabels "s1" fxEgo fxTid fxInfo = .ok (_) := rfl
  have h := c1_single_inverse_transform "s1" fxEgo fxTid fxInfo _ _ _ rfl rfl hok
  exact ⟨_, hok, h.1, h.2 0 fxAnn rfl⟩

/-- C5: for every instance annotation, the (width, length, height) size
triple is re-emitted in the built label box as (length, width, height). -/
theorem c5_size_reorder (ann : InstAnnRec) (info : AnnInfo) (b : LabeledBox3D)
    (hok : getLabeledBox ann info = .ok b) :
    ∀ w l h, ann.size = (w, l, h) → b.size = (l, w, h) := by
  intro w l h hsz
  simp only [getLabeledBox] at hok
  obtain ⟨instTbl, h1, hok⟩ := exBind_ok hok
  obtain ⟨catTbl, h2, hok⟩ := exBind_ok hok
  obtain ⟨instRec, h3, hok⟩ := exBind_ok hok
  obtain ⟨catRec, h4, hok⟩ := exBind_ok hok
  obtain ⟨attrs, h5, hok⟩ := exBind_ok hok
  obtain ⟨visTbl, h6, hok⟩ := exBind_ok hok
  obtain ⟨visRec, h7, hok⟩ := exBind_ok hok
  cases hok
  simp [hsz]

/-- C5 witness: the annotation with size (width 2, length 5, height 3/2)
yields the box size (5, 2, 3/2). -/
theorem c5_size_reorder_witness :
    ∃ b, getLabeledBox fxAnn fxInfo = .ok b ∧ b.size = ((5 : ℚ), 2, 3/2) := by
  obtain ⟨b, hb⟩ : ∃ b, getLabeledBox fxAnn fxInfo = .ok b := ⟨_, rfl⟩
  exact ⟨b, hb, c5_size_reorder fxAnn fxInfo b hb 2 5 (3/2) rfl⟩

/-- C10: a non-test frame whose token has no entry in the sample-annotation
index resolves, without any key error, to the empty label list, for every
ego pose and every extrinsic calibration (so neither the ego-pose transform
nor any box is ever consulted). -/
theorem c10_no_anns_empty_labels (info : AnnInfo) (sa : List (String × List InstAnnRec))
    (tok : String) (hsa : info.sample_anns = some sa) (hnone : lookupTok sa tok = none) :
    ∀ ego extr, getLabels tok ego extr info = .ok [] := by
  intro ego extr
  simp only [getLabels, hsa, annKey, exBind_pure, hnone]

/-- C10 witness: token `s2` has no annotations in the fixture; label
resolution returns the empty list. -/
theorem c10_no_anns_empty_labels_witness :
    getLabels "s2" fxEgo fxTid fxInfo = .ok [] :=
  c10_no_anns_empty_labels fxInfo _ "s2" rfl rfl fxEgo fxTid

/-- C4: an attribute name is split at its LAST dot into (group, state); the
group is mapped through the fixed table to form the attribute key (and
`vehicle`, `cycle`, `pedestrian` map to `vehicle_motion`, `cycle_rider`,
`pedestrian_motion`); a group outside the table is a fatal key error. -/
theorem c4_attribute_flattening (info : AnnInfo) (attrTbl : List (String × AttributeRec))
    (t : String) (attrs : List (String × String)) (rec : AttributeRec) (g v : String)
    (hattr : info.attributes = some attrTbl)
    (hrec : lookupTok attrTbl t = some rec)
    (hsplit : rsplitDot1 rec.name = some (g, v)) :
    (∀ mk, lookupTok ATTRIBUTE_KEYS g = some mk →
      attrStep info attrs t = .ok (dictInsert attrs mk v)) ∧
    (lookupTok ATTRIBUTE_KEYS g = none →
      attrStep info attrs t = .error (.keyError "_ATTRIBUTE_KEYS" g)) ∧
    lookupTok ATTRIBUTE_KEYS "vehicle" = some "vehicle_motion" ∧
    lookupTok ATTRIBUTE_KEYS "cycle" = some "cycle_rider" ∧
    lookupTok ATTRIBUTE_KEYS "pedestrian" = some "pedestrian_motion" ∧
    rsplitDot1 "vehicle.moving" = some ("vehicle", "moving") ∧
    rsplitDot1 "a.b.c" = some ("a.b", "c") := by
  refine ⟨?_, ?_, by decide, by decide, by decide, by decide, by decide⟩
  · intro mk hmk
    simp only [attrStep, hattr, annKey, exBind_pure, getKey, hrec, hsplit, hmk]
  · intro hnone
    simp only [attrStep, hattr, annKey, exBind_pure, getKey, hrec, hsplit, hnone, exBind_fail]

/-- C4 witness: `vehicle.moving` flattens to `vehicle_motion = "moving"`;
the unrecognized group of `unknown.state` raises the fatal key error. -/
theorem c4_attribute_flattening_witness :
    attrStep fxInfo [] "at1" = .ok [("vehicle_motion", "moving")] ∧
    attrStep fxInfo [] "atBad" = .error (.keyError "_ATTRIBUTE_KEYS" "unknown") := by
  constructor
  · exact (c4_attribute_flattening fxInfo _ "at1" [] ⟨"vehicle.moving"⟩ "vehicle" "moving"
      rfl rfl (by decide)).1 "vehicle_motion" (by decide)
  · exact (c4_attribute_flattening fxInfo _ "atBad" [] ⟨"unknown.state"⟩ "unknown" "state"
      rfl rfl (by decide)).2.1 (by decide)

/-- C8: every foreign-key lookup of frame assembly is fatal when the token
is absent from its table — the whole per-scene load surfaces the key error
(sample-data and next-sample tokens through the while loop; calibrated
sensor, sensor, ego pose through the entry loop; instance, category,
attribute and visibility through label resolution) — and the loop is total:
it yields a segment or an error, never anything partial. -/
theorem c8_missing_token_fatal (info : AnnInfo) (sp : String) (it : Bool) :
    (∀ fuel tok seg, tok ≠ "" → lookupTok info.frame_data tok = none →
      sceneLoop info sp it (fuel + 1) tok seg = .error (.keyError "frame_data" tok)) ∧
    (∀ fuel tok seg s' f, tok ≠ "" →
      loadFrameAndSensor info sp it seg.sensors tok = .ok (s', f) →
      lookupTok info.samples tok = none →
      sceneLoop info sp it (fuel + 1) tok seg = .error (.keyError "samples" tok)) ∧
    (∀ tok sf rest sensors frame,
      lookupTok info.calibrated_sensors sf.calibrated_sensor_token = none →
      processEntries info sp it tok (sf :: rest) sensors frame =
        .error (.keyError "calibrated_sensors" sf.calibrated_sensor_token)) ∧
    (∀ tok sf rest sensors frame cal,
      lookupTok info.calibrated_sensors sf.calibrated_sensor_token = some cal →
      lookupTok info.sensor cal.sensor_token = none →
      processEntries info sp it tok (sf :: rest) sensors frame =
        .error (.keyError "sensor" cal.sensor_token)) ∧
    (∀ tok n sensors sf, lookupTok info.ego_poses sf.ego_pose_token = none →
      resolveBox3d info tok false "lidar" n sensors sf =
        .error (.keyError "ego_poses" sf.ego_pose_token)) ∧
    (∀ ann instTbl catTbl, info.instances = some instTbl → info.categories = some catTbl →
      lookupTok instTbl ann.instance_token = none →
      getLabeledBox ann info = .error (.keyError "instance" ann.instance_token)) ∧
    (∀ ann instTbl catTbl instRec,
      info.instances = some instTbl → info.categories = some catTbl →
      lookupTok instTbl ann.instance_token = some instRec →
      lookupTok catTbl instRec.category_token = none →
      getLabeledBox ann info = .error (.keyError "category" instRec.category_token)) ∧
    (∀ attrs t attrTbl, info.attributes = some attrTbl → lookupTok attrTbl t = none →
      attrStep info attrs t = .error (.keyError "attribute" t)) ∧
    (∀ ann instTbl catTbl instRec catRec attrs visTbl,
      info.instances = some instTbl → info.categories = some catTbl →
      lookupTok instTbl ann.instance_token = some instRec →
      lookupTok catTbl instRec.category_token = some catRec →
      attrFold info ann.attribute_tokens [] = .ok attrs →
      info.visibilities = some visTbl →
      lookupTok visTbl ann.visibility_token = none →
      getLabeledBox ann info = .error (.keyError "visibility" ann.visibility_token)) ∧
    (∀ fuel tok seg, (∃ s, sceneLoop info sp it fuel tok seg = .ok s) ∨
      (∃ e, sceneLoop info sp it fuel tok seg = .error e)) := by
  refine ⟨?_, ?_, ?_, ?_, ?_, ?_, ?_, ?_, ?_, ?_⟩
  · intro fuel tok seg ht hnone
    simp only [sceneLoop, if_neg ht, loadFrameAndSensor, getKey, hnone, exBind_fail]
  · intro fuel tok seg s' f ht hload hnext
    simp only [sceneLoop, if_neg ht, hload, exBind_pure, getKey, hnext, exBind_fail]
  · intro tok sf rest sensors frame hnone
    simp only [processEntries, getKey, hnone, exBind_fail]
  · intro tok sf rest sensors frame cal hcal hnone
    simp only [processEntries, getKey, hcal, hnone, exBind_pure, exBind_fail]
  · intro tok n sensors sf hnone
    simp [resolveBox3d, getKey, hnone, exBind_fail]
  · intro ann instTbl catTbl hinst hcat hnone
    simp only [getLabeledBox, annKey, hinst, hcat, exBind_pure, getKey, hnone, exBind_fail]
  · intro ann instTbl catTbl instRec hinst hcat hl hnone
    simp only [getLabeledBox, annKey, hinst, hcat, exBind_pure, getKey, hl, hnone, exBind_fail]
  · intro attrs t attrTbl hattr hnone
    simp only [attrStep, annKey, hattr, exBind_pure, getKey, hnone, exBind_fail]
  · intro ann instTbl catTbl instRec catRec attrs visTbl hinst hcat hl1 hl2 hfold hvis hnone
    simp only [getLabeledBox, annKey, hinst, hcat, hvis, exBind_pure, getKey, hl1, hl2,
      hfold, hnone, exBind_fail]
  · intro fuel tok seg
    cases h : sceneLoop info sp it fuel tok seg with
    | error e => exact Or.inr ⟨e, rfl⟩
    | ok s => exact Or.inl ⟨s, rfl⟩

/-- C8 witness: each kind of dangling token of the fixture surfaces its
fatal key error. -/
theorem c8_missing_token_fatal_witness :
    sceneLoop fxInfo "p" false 1 "s2" fxSeg = .error (.keyError "frame_data" "s2") ∧
    sceneLoop fxInfo "p" false 1 "orphan" fxSeg = .error (.keyError "samples" "orphan") ∧
    processEntries fxInfo "p" false "s1"
      [{ fxSf1 with calibrated_sensor_token := "csNo" }] [] [] =
      .error (.keyError "calibrated_sensors" "csNo") ∧
    processEntries fxInfo "p" false "s1"
      [{ fxSf1 with calibrated_sensor_token := "csBad" }] [] [] =
      .error (.keyError "sensor" "zzz") ∧
    resolveBox3d fxInfo "s1" false "lidar" "LIDAR_TOP" []
      { fxSf1 with ego_pose_token := "eNo" } = .error (.keyError "ego_poses" "eNo") ∧
    getLabeledBox { fxAnn with instance_token := "iNo" } fxInfo =
      .error (.keyError "instance" "iNo") ∧
    getLabeledBox { fxAnn with instance_token := "instBadCat" } fxInfo =
      .error (.keyError "category" "catNo") ∧
    attrStep fxInfo [] "atNo" = .error (.keyError "attribute" "atNo") ∧
    getLabeledBox { fxAnn with visibility_token := "vNo" } fxInfo =
      .error (.keyError "visibility" "vNo") := by
  have h := c8_missing_token_fatal fxInfo "p" false
  refine ⟨h.1 0 "s2" fxSeg (by decide) rfl,
    h.2.1 0 "orphan" fxSeg _ _ (by decide) rfl rfl,
    h.2.2.1 "s1" _ [] [] [] rfl,
    h.2.2.2.1 "s1" _ [] [] [] ⟨"zzz", fxTid⟩ rfl rfl,
    h.2.2.2.2.1 "s1" "LIDAR_TOP" [] _ rfl,
    h.2.2.2.2.2.1 _ _ _ rfl rfl rfl,
    h.2.2.2.2.2.2.1 _ _ _ ⟨"catNo"⟩ rfl rfl rfl rfl,
    h.2.2.2.2.2.2.2.1 [] "atNo" _ rfl rfl,
    h.2.2.2.2.2.2.2.2.1 _ _ _ ⟨"cat1"⟩ ⟨"vehicle.car"⟩ _ _ rfl rfl rfl rfl rfl rfl rfl⟩

end NuScenes
